import Mathlib

/-!
Verification of the chat request handler in
`src/backend/lambda/chat_handler.py`.

The Python module is embedded shallowly: every pure computation (CORS
headers, response shaping, the two error classifiers, request validation)
becomes a Lean function with the same name, and the effectful collaborators
(UTC clock, DynamoDB query, Bedrock invocation, uuid) are threaded through
an explicit `World` record carrying their outcomes for one invocation.
`lambda_handler` returns, besides the HTTP response, a trace of the
Bedrock call input and of the `put_item` calls it issued, so that claims
about persistence and backend invocation are statable.
-/

namespace ChatHandler

/-- Whether `hay` starts with `needle`, on character lists. -/
def startsWithSeq : List Char → List Char → Bool
  | _, [] => true
  | [], _ :: _ => false
  | c :: cs, d :: ds => c == d && startsWithSeq cs ds

/-- Whether `needle` occurs contiguously inside `hay`, on character
lists. -/
def hasInfixSeq : List Char → List Char → Bool
  | [], needle => needle.isEmpty
  | c :: rest, needle =>
      startsWithSeq (c :: rest) needle || hasInfixSeq rest needle

/-- Python `needle in hay` substring test: contiguous infix of the
character sequence. -/
def strContains (hay needle : String) : Bool :=
  hasInfixSeq hay.data needle.data

/-- Python `s.lower()`: lower-case every character. -/
def py_lower (s : String) : String :=
  String.mk (s.data.map Char.toLower)

/-- Python `s.strip()`: drop leading and trailing whitespace. -/
def py_strip (s : String) : String :=
  String.mk
    (((s.data.dropWhile Char.isWhitespace).reverse.dropWhile Char.isWhitespace).reverse)

/-- Python slice `s[:n]`: the first `n` characters of `s`. -/
def py_slice (s : String) (n : Nat) : String :=
  String.mk (s.data.take n)

def ERROR_TYPE_INSUFFICIENT_CREDITS : String := "insufficient_credits"

def ERROR_TYPE_RATE_LIMIT : String := "rate_limit"

def ERROR_TYPE_INVALID_API_KEY : String := "invalid_api_key"

def ERROR_TYPE_ANTHROPIC_ERROR : String := "anthropic_error"

def ERROR_TYPE_SYSTEM_ERROR : String := "system_error"

def MAX_ERROR_MESSAGE_LENGTH : Nat := 200

/-- The response body: `''` for the OPTIONS branch, otherwise the
structured content that `json.dumps` serializes in `create_response`. -/
inductive RespBody
  | empty
  | errorBody (error : String) (canRetry : Bool) (errorType : Option String)
  | successBody (response conversationId timestamp requestId : String)
deriving DecidableEq

def RespBody.errorMessageField : RespBody → Option String
  | .errorBody m _ _ => some m
  | _ => none

def RespBody.canRetryField : RespBody → Option Bool
  | .errorBody _ r _ => some r
  | _ => none

def RespBody.errorTypeField : RespBody → Option String
  | .errorBody _ _ t => t
  | _ => none

structure HttpResponse where
  statusCode : Nat
  headers : List (String × String)
  body : RespBody
deriving DecidableEq

/-- `get_cors_headers` from the source: the three CORS headers plus the
JSON content type. -/
def get_cors_headers : List (String × String) :=
  [("Access-Control-Allow-Origin", "*"),
   ("Access-Control-Allow-Methods", "POST, OPTIONS"),
   ("Access-Control-Allow-Headers", "Content-Type, Authorization"),
   ("Content-Type", "application/json")]

/-- `create_response`: wraps a body with a status code and the CORS
headers. -/
def create_response (status_code : Nat) (body : RespBody) : HttpResponse :=
  ⟨status_code, get_cors_headers, body⟩

/-- `error_response`: standardized error envelope (the `details` argument
is never passed anywhere in the module, so it is omitted). The source
attaches `errorType` only when truthy; all call sites pass a non-empty
constant, modelled as `Option String`. -/
def error_response (message : String) (status_code : Nat)
    (error_type : Option String) (can_retry : Bool) : HttpResponse :=
  create_response status_code (RespBody.errorBody message can_retry error_type)

/-- A Python exception as the classifiers see it: `str(error)` plus the
optional `message` attribute probed with `hasattr`. -/
structure PyError where
  str : String
  messageAttr : Option String
deriving DecidableEq

/-- The triple `(error_message, error_type, can_retry)` returned by
`parse_anthropic_error`, also used for the Bedrock-path classification. -/
structure ParsedError where
  message : String
  errorType : String
  canRetry : Bool
deriving DecidableEq

/-- `parse_anthropic_error`: the direct-vendor-API error classifier.
Case-insensitive substring checks in source order; the default branch
keeps `anthropic_error` and builds the message from the `message`
attribute when present, else from `str(error)` truncated to 200. -/
def parse_anthropic_error (error : PyError) : ParsedError :=
  let error_str := error.str
  let error_str_lower := py_lower error_str
  if strContains error_str_lower "credit balance is too low" ||
      strContains error_str_lower "insufficient credits" then
    ⟨"Your Anthropic API credit balance is too low. Please add credits at https://console.anthropic.com/settings/billing",
     ERROR_TYPE_INSUFFICIENT_CREDITS, false⟩
  else if strContains error_str_lower "rate limit" ||
      strContains error_str_lower "too many requests" then
    ⟨"Rate limit reached. Please wait a moment and try again. If this persists, check your Anthropic account limits.",
     ERROR_TYPE_RATE_LIMIT, true⟩
  else if strContains error_str_lower "api key" &&
      (strContains error_str_lower "invalid" || strContains error_str_lower "unauthorized") then
    ⟨"API key is invalid or missing. Please check your Anthropic API key configuration. The key should be stored in AWS SSM Parameter Store at /prod/anthropic-api-key",
     ERROR_TYPE_INVALID_API_KEY, false⟩
  else if strContains error_str_lower "authentication" ||
      strContains error_str_lower "unauthorized" then
    ⟨"Authentication failed. Please verify your Anthropic API key is valid and has not expired.",
     ERROR_TYPE_INVALID_API_KEY, false⟩
  else
    match error.messageAttr with
    | some m =>
        ⟨"Anthropic API error: " ++ m, ERROR_TYPE_ANTHROPIC_ERROR, true⟩
    | none =>
        ⟨"An error occurred with the AI service: " ++ py_slice error_str MAX_ERROR_MESSAGE_LENGTH,
         ERROR_TYPE_ANTHROPIC_ERROR, true⟩

/-- The `except` block of `generate_response`: the classification applied
to Bedrock failures (`error_str = str(e).lower()`), in source order. -/
def classify_bedrock_error (e_str : String) : ParsedError :=
  let error_str := py_lower e_str
  if strContains error_str "throttling" || strContains error_str "rate" then
    ⟨"Rate limit reached. Please wait a moment and try again.",
     ERROR_TYPE_RATE_LIMIT, true⟩
  else if strContains error_str "access" || strContains error_str "denied" ||
      strContains error_str "authorized" then
    ⟨"Access denied to AWS Bedrock. Please ensure the Lambda has proper IAM permissions.",
     ERROR_TYPE_INVALID_API_KEY, false⟩
  else if strContains error_str "model" && strContains error_str "not found" then
    ⟨"Claude model not available in Bedrock. Please enable Claude models in your AWS account.",
     ERROR_TYPE_SYSTEM_ERROR, false⟩
  else
    ⟨"AI service error: " ++ py_slice e_str 200, ERROR_TYPE_ANTHROPIC_ERROR, true⟩

/-- One DynamoDB item as written by `store_message`. -/
structure StoredItem where
  conversationId : String
  timestamp : String
  sender : String
  message : String
  ttl : Nat
deriving DecidableEq

/-- A `{role, content}` message passed to Bedrock. -/
structure Msg where
  role : String
  content : String
deriving DecidableEq

/-- Outcomes of the effectful collaborators for one invocation: the uuid,
the UTC timestamp, the TTL epoch value, the DynamoDB query outcome for the
request conversation, and the Bedrock outcome (reply text or the
`str(e)` of the raised exception). -/
structure World where
  requestId : String
  timestamp : String
  ttl : Nat
  queryOutcome : Except Unit (List StoredItem)
  bedrockOutcome : Except String String

/-- `get_conversation_history`: queries up to `limit*2` items ascending,
maps `sender == 'user'` to role `user` and anything else to `assistant`;
any store failure yields `[]`. -/
def get_conversation_history (w : World) (_conversation_id : String)
    (limit : Nat) : List Msg :=
  match w.queryOutcome with
  | Except.error _ => []
  | Except.ok items =>
      (items.take (limit * 2)).map fun it =>
        ⟨if it.sender = "user" then "user" else "assistant", it.message⟩

/-- An exception reaching the outer handler: its `str`, and the optional
`error_type` / `can_retry` attributes read with `getattr` defaults. -/
structure PyExc where
  message : String
  error_type : Option String
  can_retry : Option Bool
deriving DecidableEq

/-- The `except` block of `lambda_handler`: re-examines a surfaced
`system_error` whose message does not contain "Anthropic", reclassifying
configuration errors as `invalid_api_key` and replacing anything else with
a generic retryable message; all other errors pass through at status 500. -/
def handle_processing_error (e : PyExc) : HttpResponse :=
  let error_type := e.error_type.getD ERROR_TYPE_SYSTEM_ERROR
  let can_retry := e.can_retry.getD true
  let error_message := e.message
  if error_type = ERROR_TYPE_SYSTEM_ERROR ∧ ¬ strContains error_message "Anthropic" then
    if strContains error_message "API key" || strContains error_message "SSM" ||
        strContains error_message "Parameter" then
      error_response error_message 500 (some ERROR_TYPE_INVALID_API_KEY) false
    else
      error_response
        "I\x27m having trouble processing your request. This might be a temporary issue. Please try again in a moment."
        500 (some error_type) true
  else
    error_response error_message 500 (some error_type) can_retry

/-- The parsed request body fields the handler reads (`message`,
`conversationId`), each absent or a JSON string. -/
structure ReqBody where
  message : Option String
  conversationId : Option String
deriving DecidableEq

/-- The `body` entry of the incoming event: missing, present but not valid
JSON, or parsed into its two relevant fields. -/
inductive EventBody
  | absent
  | invalid
  | parsed (b : ReqBody)
deriving DecidableEq

/-- The incoming API-Gateway event: `httpMethod` (read with `event.get`)
and the body. -/
structure Event where
  httpMethod : Option String
  body : EventBody
deriving DecidableEq

/-- Result of one `lambda_handler` invocation: the HTTP response, the
messages array passed to Bedrock (`none` when Bedrock was never invoked),
and the `put_item` calls issued, in order. -/
structure RunResult where
  response : HttpResponse
  backendInput : Option (List Msg)
  puts : List StoredItem
deriving DecidableEq

/-- `lambda_handler`: OPTIONS preflight, then body validation in source
order, then history load, Bedrock call, the two `store_message` calls and
the success envelope; a Bedrock failure is classified in
`generate_response` and re-examined by `handle_processing_error`. -/
def lambda_handler (event : Event) (w : World) : RunResult :=
  if event.httpMethod = some "OPTIONS" then
    ⟨⟨200, get_cors_headers, RespBody.empty⟩, none, []⟩
  else
    match event.body with
    | EventBody.absent =>
        ⟨error_response "Missing request body" 400 (some ERROR_TYPE_SYSTEM_ERROR) false,
         none, []⟩
    | EventBody.invalid =>
        ⟨error_response "Invalid JSON in request body" 400 (some ERROR_TYPE_SYSTEM_ERROR) false,
         none, []⟩
    | EventBody.parsed b =>
        let user_message := py_strip (b.message.getD "")
        let conversation_id := b.conversationId.getD ""
        if user_message = "" then
          ⟨error_response "Message cannot be empty" 400 (some ERROR_TYPE_SYSTEM_ERROR) false,
           none, []⟩
        else if conversation_id = "" then
          ⟨error_response "conversationId is required" 400 (some ERROR_TYPE_SYSTEM_ERROR) false,
           none, []⟩
        else
          let timestamp := w.timestamp
          let conversation_history := get_conversation_history w conversation_id 10
          let messages := conversation_history ++ [⟨"user", user_message⟩]
          match w.bedrockOutcome with
          | Except.error e_str =>
              let pe := classify_bedrock_error e_str
              ⟨handle_processing_error ⟨pe.message, some pe.errorType, some pe.canRetry⟩,
               some messages, []⟩
          | Except.ok assistant_message =>
              ⟨create_response 200
                 (RespBody.successBody assistant_message conversation_id timestamp w.requestId),
               some messages,
               [⟨conversation_id, timestamp, "user", user_message, w.ttl⟩,
                ⟨conversation_id, timestamp, "assistant", assistant_message, w.ttl⟩]⟩

/-- DynamoDB `put_item` semantics on a table keyed by
`(conversationId, timestamp)`: a put replaces any item with the same
composite key. -/
def put_item (store : List StoredItem) (it : StoredItem) : List StoredItem :=
  it :: store.filter fun j =>
    ¬ (j.conversationId = it.conversationId ∧ j.timestamp = it.timestamp)

/-- Apply a sequence of `put_item` calls to a table, in order. -/
def apply_puts (store : List StoredItem) (items : List StoredItem) : List StoredItem :=
  items.foldl put_item store

end ChatHandler

namespace ChatHandler

theorem py_slice_length_le (s : String) (n : Nat) : (py_slice s n).length ≤ n := by
  unfold py_slice
  rw [String.length_mk]
  exact (List.length_take n s.data).le.trans (Nat.min_le_left n s.data.length)

theorem string_length_append (a b : String) : (a ++ b).length = a.length + b.length := by
  show (a ++ b).data.length = a.data.length + b.data.length
  rw [String.data_append, List.length_append]

/-- Claim C1, counterexample: a raw Bedrock error reading "Your credit
balance is too low." is classified by the backend-invocation path as
`anthropic_error` with canRetry=true, not as `insufficient_credits`:
the Bedrock classifier in `generate_response` has no insufficient-credits
rule, and `parse_anthropic_error` is never called by `lambda_handler`. -/
theorem C1_counterexample :
    (lambda_handler ⟨some "POST", EventBody.parsed ⟨some "hi", some "c1"⟩⟩
        ⟨"r", "t0", 0, Except.ok [],
         Except.error "Your credit balance is too low."⟩).response.body.errorTypeField =
      some ERROR_TYPE_ANTHROPIC_ERROR ∧
    (lambda_handler ⟨some "POST", EventBody.parsed ⟨some "hi", some "c1"⟩⟩
        ⟨"r", "t0", 0, Except.ok [],
         Except.error "Your credit balance is too low."⟩).response.body.canRetryField =
      some true ∧
    ERROR_TYPE_ANTHROPIC_ERROR ≠ ERROR_TYPE_INSUFFICIENT_CREDITS :=
  ⟨rfl, rfl, by decide⟩

/-- Claim C1, amended: the rule holds of `parse_anthropic_error` (the
direct-vendor-API classifier): any error whose text contains "credit
balance is too low" case-insensitively is classified as
`insufficient_credits` with canRetry=false, this rule taking precedence
over every other rule of that classifier. -/
theorem C1_amended (e : PyError)
    (h : strContains (py_lower e.str) "credit balance is too low" = true) :
    parse_anthropic_error e =
      ⟨"Your Anthropic API credit balance is too low. Please add credits at https://console.anthropic.com/settings/billing",
       ERROR_TYPE_INSUFFICIENT_CREDITS, false⟩ := by
  unfold parse_anthropic_error
  dsimp only
  rw [h]
  rfl

theorem C1_amended_witness :
    parse_anthropic_error ⟨"Your Credit balance is too low today", none⟩ =
      ⟨"Your Anthropic API credit balance is too low. Please add credits at https://console.anthropic.com/settings/billing",
       ERROR_TYPE_INSUFFICIENT_CREDITS, false⟩ :=
  C1_amended ⟨"Your Credit balance is too low today", none⟩ (by decide)

/-- Claim C2, evaluated at a concrete successful turn: the handler issues
exactly two puts (sender `user` then `assistant`) both carrying the
response timestamp, as the claim states; but because both carry the same
`(conversationId, timestamp)` composite key, applying them to a store
keyed on that pair leaves a single item — the assistant turn overwrites
the user turn, so the two insertions do not remain distinct items. -/
theorem C2_theorem :
    (lambda_handler ⟨some "POST", EventBody.parsed ⟨some "hi", some "c1"⟩⟩
        ⟨"req-1", "2025-01-01T00:00:00", 7, Except.ok [], Except.ok "hello there"⟩).response.body =
      RespBody.successBody "hello there" "c1" "2025-01-01T00:00:00" "req-1" ∧
    (lambda_handler ⟨some "POST", EventBody.parsed ⟨some "hi", some "c1"⟩⟩
        ⟨"req-1", "2025-01-01T00:00:00", 7, Except.ok [], Except.ok "hello there"⟩).puts.map
      StoredItem.sender = ["user", "assistant"] ∧
    (lambda_handler ⟨some "POST", EventBody.parsed ⟨some "hi", some "c1"⟩⟩
        ⟨"req-1", "2025-01-01T00:00:00", 7, Except.ok [], Except.ok "hello there"⟩).puts.map
      StoredItem.timestamp = ["2025-01-01T00:00:00", "2025-01-01T00:00:00"] ∧
    apply_puts []
      (lambda_handler ⟨some "POST", EventBody.parsed ⟨some "hi", some "c1"⟩⟩
        ⟨"req-1", "2025-01-01T00:00:00", 7, Except.ok [], Except.ok "hello there"⟩).puts =
      [⟨"c1", "2025-01-01T00:00:00", "assistant", "hello there", 7⟩] :=
  ⟨rfl, rfl, rfl, rfl⟩

end ChatHandler

namespace ChatHandler

/-- Claim C3: every POST event whose body is missing or invalid JSON,
whose message is empty after trimming, or whose conversationId is missing
or empty, gets a 400 response with errorType `system_error` and
canRetry=false. -/
theorem C3_invalid_request (e : Event) (w : World)
    (hm : e.httpMethod = some "POST")
    (hbad : e.body = EventBody.absent ∨ e.body = EventBody.invalid ∨
      ∃ b, e.body = EventBody.parsed b ∧
        (py_strip (b.message.getD "") = "" ∨ b.conversationId.getD "" = "")) :
    (lambda_handler e w).response.statusCode = 400 ∧
    (lambda_handler e w).response.body.errorTypeField = some ERROR_TYPE_SYSTEM_ERROR ∧
    (lambda_handler e w).response.body.canRetryField = some false := by
  have hne : ¬ e.httpMethod = some "OPTIONS" := by rw [hm]; simp
  unfold lambda_handler
  rw [if_neg hne]
  rcases hbad with h | h | ⟨b, hb, hs⟩
  · rw [h]; exact ⟨rfl, rfl, rfl⟩
  · rw [h]; exact ⟨rfl, rfl, rfl⟩
  · rw [hb]
    dsimp only
    by_cases hmsg : py_strip (b.message.getD "") = ""
    · rw [if_pos hmsg]; exact ⟨rfl, rfl, rfl⟩
    · rw [if_neg hmsg]
      have hconv : b.conversationId.getD "" = "" := hs.resolve_left hmsg
      rw [if_pos hconv]; exact ⟨rfl, rfl, rfl⟩

theorem C3_witness :
    (lambda_handler ⟨some "POST", EventBody.absent⟩
        ⟨"r", "t", 0, Except.ok [], Except.ok "x"⟩).response.statusCode = 400 ∧
    (lambda_handler ⟨some "POST", EventBody.absent⟩
        ⟨"r", "t", 0, Except.ok [], Except.ok "x"⟩).response.body.errorTypeField =
      some ERROR_TYPE_SYSTEM_ERROR ∧
    (lambda_handler ⟨some "POST", EventBody.absent⟩
        ⟨"r", "t", 0, Except.ok [], Except.ok "x"⟩).response.body.canRetryField =
      some false :=
  C3_invalid_request ⟨some "POST", EventBody.absent⟩ ⟨"r", "t", 0, Except.ok [], Except.ok "x"⟩
    rfl (Or.inl rfl)

/-- Claim C4: the outer handler re-pass on a surfaced `system_error` whose
message does not contain "Anthropic": if the message contains one of the
credential or parameter-store terms (`API key`, `SSM`, `Parameter`), the
response carries errorType `invalid_api_key` with canRetry=false;
otherwise the message is replaced by the generic temporary-issue text and
canRetry is forced to true. -/
theorem C4_system_error_repass (e : PyExc)
    (ht : e.error_type.getD ERROR_TYPE_SYSTEM_ERROR = ERROR_TYPE_SYSTEM_ERROR)
    (ha : strContains e.message "Anthropic" = false) :
    ((strContains e.message "API key" || strContains e.message "SSM" ||
        strContains e.message "Parameter") = true →
      (handle_processing_error e).body.errorTypeField = some ERROR_TYPE_INVALID_API_KEY ∧
      (handle_processing_error e).body.canRetryField = some false) ∧
    ((strContains e.message "API key" || strContains e.message "SSM" ||
        strContains e.message "Parameter") = false →
      (handle_processing_error e).body.errorMessageField =
        some "I\x27m having trouble processing your request. This might be a temporary issue. Please try again in a moment." ∧
      (handle_processing_error e).body.errorTypeField = some ERROR_TYPE_SYSTEM_ERROR ∧
      (handle_processing_error e).body.canRetryField = some true) := by
  unfold handle_processing_error
  dsimp only
  rw [ht, ha]
  rw [if_pos ⟨rfl, by simp⟩]
  constructor
  · intro hterm
    rw [if_pos hterm]
    exact ⟨rfl, rfl⟩
  · intro hterm
    rw [if_neg (by rw [hterm]; simp)]
    exact ⟨rfl, rfl, rfl⟩

theorem C4_witness :
    (handle_processing_error ⟨"SSM parameter fetch failed", none, none⟩).body.errorTypeField =
      some ERROR_TYPE_INVALID_API_KEY ∧
    (handle_processing_error ⟨"SSM parameter fetch failed", none, none⟩).body.canRetryField =
      some false :=
  (C4_system_error_repass ⟨"SSM parameter fetch failed", none, none⟩ rfl (by decide)).1 (by decide)

/-- Claim C5: when the history query fails, `get_conversation_history`
returns the empty sequence, and the handler still invokes the backend for
the new turn, passing exactly the single trimmed user message as the
messages array. -/
theorem C5_history_failure (b : ReqBody) (w : World)
    (hq : w.queryOutcome = Except.error ())
    (hmsg : ¬ py_strip (b.message.getD "") = "")
    (hconv : ¬ b.conversationId.getD "" = "") :
    get_conversation_history w (b.conversationId.getD "") 10 = [] ∧
    (lambda_handler ⟨some "POST", EventBody.parsed b⟩ w).backendInput =
      some [⟨"user", py_strip (b.message.getD "")⟩] := by
  have hh : ∀ cid, get_conversation_history w cid 10 = [] := by
    intro cid
    unfold get_conversation_history
    rw [hq]
  refine ⟨hh _, ?_⟩
  unfold lambda_handler
  rw [if_neg (by simp)]
  dsimp only
  rw [if_neg hmsg, if_neg hconv]
  cases hb : w.bedrockOutcome with
  | error s => dsimp only; rw [hh]; rfl
  | ok m => dsimp only; rw [hh]; rfl

theorem C5_witness :
    get_conversation_history ⟨"r", "t", 0, Except.error (), Except.ok "x"⟩ "c1" 10 = [] ∧
    (lambda_handler ⟨some "POST", EventBody.parsed ⟨some "hi", some "c1"⟩⟩
        ⟨"r", "t", 0, Except.error (), Except.ok "x"⟩).backendInput =
      some [⟨"user", "hi"⟩] := by
  have h := C5_history_failure ⟨some "hi", some "c1"⟩
    ⟨"r", "t", 0, Except.error (), Except.ok "x"⟩ rfl (by decide) (by decide)
  exact h

/-- Claim C6: every response returned by `lambda_handler` — OPTIONS
preflight, validation error, backend error, or success — carries the
three CORS headers and the JSON content type. -/
theorem C6_cors_headers (e : Event) (w : World) :
    (lambda_handler e w).response.headers =
      [("Access-Control-Allow-Origin", "*"),
       ("Access-Control-Allow-Methods", "POST, OPTIONS"),
       ("Access-Control-Allow-Headers", "Content-Type, Authorization"),
       ("Content-Type", "application/json")] := by
  unfold lambda_handler handle_processing_error error_response create_response get_cors_headers
  repeat' (first | rfl | split | dsimp only)

end ChatHandler


namespace ChatHandler

/-- Claim C7: both error classifiers are total Lean functions (hence
deterministic and non-raising), and for every input the returned kind is
one of the five taxonomy kinds. -/
theorem C7_classifier_total (e : PyError) (s : String) :
    (parse_anthropic_error e).errorType ∈
      [ERROR_TYPE_INSUFFICIENT_CREDITS, ERROR_TYPE_RATE_LIMIT, ERROR_TYPE_INVALID_API_KEY,
       ERROR_TYPE_ANTHROPIC_ERROR, ERROR_TYPE_SYSTEM_ERROR] ∧
    (classify_bedrock_error s).errorType ∈
      [ERROR_TYPE_INSUFFICIENT_CREDITS, ERROR_TYPE_RATE_LIMIT, ERROR_TYPE_INVALID_API_KEY,
       ERROR_TYPE_ANTHROPIC_ERROR, ERROR_TYPE_SYSTEM_ERROR] := by
  constructor
  · unfold parse_anthropic_error
    dsimp only
    split
    · simp [ERROR_TYPE_INSUFFICIENT_CREDITS]
    · split
      · simp [ERROR_TYPE_RATE_LIMIT]
      · split
        · simp [ERROR_TYPE_INVALID_API_KEY]
        · split
          · simp [ERROR_TYPE_INVALID_API_KEY]
          · split
            · simp [ERROR_TYPE_ANTHROPIC_ERROR]
            · simp [ERROR_TYPE_ANTHROPIC_ERROR]
  · unfold classify_bedrock_error
    dsimp only
    split
    · simp [ERROR_TYPE_RATE_LIMIT]
    · split
      · simp [ERROR_TYPE_INVALID_API_KEY]
      · split
        · simp [ERROR_TYPE_SYSTEM_ERROR]
        · simp [ERROR_TYPE_ANTHROPIC_ERROR]

/-- Claim C8: an OPTIONS event gets status 200, the CORS headers and an
empty (non-JSON) body, whatever the rest of the event and the world
contain — the body is never examined. -/
theorem C8_options_preflight (b : EventBody) (w : World) :
    lambda_handler ⟨some "OPTIONS", b⟩ w =
      ⟨⟨200,
        [("Access-Control-Allow-Origin", "*"),
         ("Access-Control-Allow-Methods", "POST, OPTIONS"),
         ("Access-Control-Allow-Headers", "Content-Type, Authorization"),
         ("Content-Type", "application/json")],
        RespBody.empty⟩, none, []⟩ := by
  unfold lambda_handler
  rw [if_pos rfl]
  rfl

set_option maxRecDepth 10000 in
/-- Claim C9, counterexample: a 210-character raw error with no `message`
attribute falls to the default branch of `parse_anthropic_error`, whose
message is the raw text truncated to 200 characters behind a 39-character
fixed prefix — 239 characters, exceeding the claimed 200 bound. -/
theorem C9_counterexample :
    200 < (parse_anthropic_error
      ⟨String.mk (List.replicate 210 (Char.ofNat 97)), none⟩).message.length := by
  have h : (parse_anthropic_error
      ⟨String.mk (List.replicate 210 (Char.ofNat 97)), none⟩).message.length = 239 := rfl
  rw [h]
  decide

set_option maxRecDepth 10000 in
/-- Claim C9, amended: for errors without a `message` attribute, every
message produced by `parse_anthropic_error` is at most 239 characters
(the raw text is truncated to 200 characters, to which the longest fixed
prefix adds 39 characters), and every message produced by the
Bedrock-path classifier is also at most 239 characters; a present
`message` attribute is embedded untruncated, with no bound. -/
theorem C9_amended (e : PyError) (s : String) (h : e.messageAttr = none) :
    (parse_anthropic_error e).message.length ≤ 239 ∧
    (classify_bedrock_error s).message.length ≤ 239 := by
  have hpre1 : ("An error occurred with the AI service: " : String).length = 39 := rfl
  have hpre2 : ("AI service error: " : String).length = 18 := rfl
  constructor
  · unfold parse_anthropic_error
    dsimp only
    rw [h]
    dsimp only
    split
    · decide
    · split
      · decide
      · split
        · decide
        · split
          · decide
          · rw [string_length_append, hpre1]
            have h1 := py_slice_length_le e.str MAX_ERROR_MESSAGE_LENGTH
            have hM : MAX_ERROR_MESSAGE_LENGTH = 200 := rfl
            omega
  · unfold classify_bedrock_error
    dsimp only
    split
    · decide
    · split
      · decide
      · split
        · decide
        · rw [string_length_append, hpre2]
          have := py_slice_length_le s 200
          omega

theorem C9_amended_witness :
    (parse_anthropic_error ⟨"boom", none⟩).message.length ≤ 239 ∧
    (classify_bedrock_error "boom").message.length ≤ 239 :=
  C9_amended ⟨"boom", none⟩ "boom" rfl

/-- Claim C10: any event whose httpMethod is not OPTIONS — including GET,
DELETE or a missing method — is processed exactly as a POST with the same
body: the handler has no method check beyond the OPTIONS branch. -/
theorem C10_non_options_as_post (e : Event) (w : World)
    (h : ¬ e.httpMethod = some "OPTIONS") :
    lambda_handler e w = lambda_handler ⟨some "POST", e.body⟩ w := by
  unfold lambda_handler
  rw [if_neg h, if_neg (by simp)]

theorem C10_witness :
    lambda_handler ⟨some "GET", EventBody.parsed ⟨some "hi", some "c1"⟩⟩
      ⟨"r", "t", 0, Except.ok [], Except.ok "x"⟩ =
    lambda_handler ⟨some "POST", EventBody.parsed ⟨some "hi", some "c1"⟩⟩
      ⟨"r", "t", 0, Except.ok [], Except.ok "x"⟩ :=
  C10_non_options_as_post ⟨some "GET", EventBody.parsed ⟨some "hi", some "c1"⟩⟩
    ⟨"r", "t", 0, Except.ok [], Except.ok "x"⟩ (by simp)

end ChatHandler
